import Mathlib

/-!
Verification of the presentable projection layer of the configuration
subsystem (`src/ansible_navigator/configuration_subsystem/defs_presentable.py`).

Python strings are modelled as Lean `String` (a list of characters compared by
code point, as in Python); Python `None`-able values as `Option`; Python
values appearing in settings entries (bool, str, list, dict) as the inductive
`PValue`; a raised exception in a fallible accessor as `Option.none`.
-/

/-- Embedding of the character substitution performed by the Python call
`name.replace("_", " ")` at line 197 of `defs_presentable.py`: since the
pattern and the replacement are single characters, `str.replace` is exactly
character-wise substitution of every underscore by one space. -/
def pySubUnderscore (c : Char) : Char := if c = '_' then ' ' else c

/-- Embedding of `s.replace("_", " ")` on a whole string. -/
def pyReplaceUnderscore (s : String) : String :=
  String.mk (s.data.map pySubUnderscore)

/-- Embedding of Python `str.capitalize`: the first character is uppercased
and every remaining character is lowercased (per the Python documentation:
"Return a copy of the string with its first character capitalized and the
rest lowercased"). -/
def pyCapitalize (s : String) : String :=
  match s.data with
  | [] => String.mk []
  | c :: cs => String.mk (Char.toUpper c :: cs.map Char.toLower)

/-- Embedding of Python `str.upper`: every character uppercased. -/
def pyUpper (s : String) : String := String.mk (s.data.map Char.toUpper)

/-- Embedding of the Python expression `x or y` where `x` is an optional
string (`None` and the empty string are falsy) and `y` is a string. -/
def pyStrOr (x : Option String) (y : String) : String :=
  match x with
  | none => y
  | some s => if s = "" then y else s

/-- Embedding of Python `<` on two character lists: lexicographic comparison
by code point (a strict prefix is smaller). -/
def pyCharsLt : List Char → List Char → Bool
  | [], [] => false
  | [], _ :: _ => true
  | _ :: _, [] => false
  | a :: as, b :: bs =>
      if a < b then true else if b < a then false else pyCharsLt as bs

/-- Embedding of Python `<` on two strings: case-sensitive ordinal
(code-point lexicographic) comparison. -/
def pyStrLt (s t : String) : Bool := pyCharsLt s.data t.data

/-- Modelled from the spec: the source-tag / sentinel enumeration `Constants`
of `configuration_subsystem/definitions.py`, which is not under `src/`. The
spec describes it as "enum identifying the precedence tier that won for a
given entry (e.g. command line, environment variable, settings file,
compiled-in default, none)" plus the "all subcommands" sentinel. Only the
identities of `ALL` and `NONE` matter to the claims; the display strings are
representative. -/
inductive Constants where
  | ALL
  | DEFAULT_CFG
  | ENVIRONMENT_VARIABLE
  | NONE
  | NOT_SET
  | SEARCH_PATH
  | USER_CFG
  | USER_CLI
deriving DecidableEq

/-- Modelled from the spec: the `.value` display string of each `Constants`
member. -/
def Constants.value : Constants → String
  | Constants.ALL => "All"
  | Constants.DEFAULT_CFG => "defaults"
  | Constants.ENVIRONMENT_VARIABLE => "environment variable"
  | Constants.NONE => "None"
  | Constants.NOT_SET => "not set"
  | Constants.SEARCH_PATH => "search path"
  | Constants.USER_CFG => "user provided configuration file"
  | Constants.USER_CLI => "cli parameters"

/-- An element of a subcommand list. Python lists are heterogeneous, so an
element is either a plain subcommand name (a string) or a `Constants`
sentinel; the projection itself only ever produces names, which is what the
sentinel-freedom part of the spec asserts. -/
inductive SubcommandItem where
  | sentinel (c : Constants)
  | name (s : String)
deriving DecidableEq

/-- The `subcommands` attribute of a settings entry: either a `Constants`
member (the `isinstance(entry.subcommands, C)` branch at line 180) or an
explicit list. -/
inductive SubcommandScope where
  | const (c : Constants)
  | list (l : List SubcommandItem)
deriving DecidableEq

/-- A Python value held by a settings entry
(`PresentableSettingsEntryValue = Union[bool, Dict, str, List]`). -/
inductive PValue where
  | bool (b : Bool)
  | str (s : String)
  | list (l : List PValue)
  | dict (d : List (String × PValue))

mutual

/-- Decidable equality on `PValue`. -/
def PValue.decEq : (a b : PValue) → Decidable (a = b)
  | PValue.bool x, PValue.bool y =>
      match Bool.decEq x y with
      | isTrue h => isTrue (by rw [h])
      | isFalse h => isFalse (by intro hh; injection hh; exact h (by assumption))
  | PValue.str x, PValue.str y =>
      match String.decEq x y with
      | isTrue h => isTrue (by rw [h])
      | isFalse h => isFalse (by intro hh; injection hh; exact h (by assumption))
  | PValue.list x, PValue.list y =>
      match PValue.decEqList x y with
      | isTrue h => isTrue (by rw [h])
      | isFalse h => isFalse (by intro hh; injection hh; exact h (by assumption))
  | PValue.dict x, PValue.dict y =>
      match PValue.decEqDict x y with
      | isTrue h => isTrue (by rw [h])
      | isFalse h => isFalse (by intro hh; injection hh; exact h (by assumption))
  | PValue.bool _, PValue.str _ => isFalse (by intro hh; exact PValue.noConfusion hh)
  | PValue.bool _, PValue.list _ => isFalse (by intro hh; exact PValue.noConfusion hh)
  | PValue.bool _, PValue.dict _ => isFalse (by intro hh; exact PValue.noConfusion hh)
  | PValue.str _, PValue.bool _ => isFalse (by intro hh; exact PValue.noConfusion hh)
  | PValue.str _, PValue.list _ => isFalse (by intro hh; exact PValue.noConfusion hh)
  | PValue.str _, PValue.dict _ => isFalse (by intro hh; exact PValue.noConfusion hh)
  | PValue.list _, PValue.bool _ => isFalse (by intro hh; exact PValue.noConfusion hh)
  | PValue.list _, PValue.str _ => isFalse (by intro hh; exact PValue.noConfusion hh)
  | PValue.list _, PValue.dict _ => isFalse (by intro hh; exact PValue.noConfusion hh)
  | PValue.dict _, PValue.bool _ => isFalse (by intro hh; exact PValue.noConfusion hh)
  | PValue.dict _, PValue.str _ => isFalse (by intro hh; exact PValue.noConfusion hh)
  | PValue.dict _, PValue.list _ => isFalse (by intro hh; exact PValue.noConfusion hh)

/-- Decidable equality on lists of `PValue`. -/
def PValue.decEqList : (a b : List PValue) → Decidable (a = b)
  | [], [] => isTrue rfl
  | [], _ :: _ => isFalse (by intro hh; exact List.noConfusion hh)
  | _ :: _, [] => isFalse (by intro hh; exact List.noConfusion hh)
  | x :: xs, y :: ys =>
      match PValue.decEq x y, PValue.decEqList xs ys with
      | isTrue h1, isTrue h2 => isTrue (by rw [h1, h2])
      | isFalse h1, _ => isFalse (by intro hh; injection hh; exact h1 (by assumption))
      | _, isFalse h2 => isFalse (by intro hh; injection hh; exact h2 (by assumption))

/-- Decidable equality on dict item lists. -/
def PValue.decEqDict : (a b : List (String × PValue)) → Decidable (a = b)
  | [], [] => isTrue rfl
  | [], _ :: _ => isFalse (by intro hh; exact List.noConfusion hh)
  | _ :: _, [] => isFalse (by intro hh; exact List.noConfusion hh)
  | (k1, v1) :: xs, (k2, v2) :: ys =>
      match String.decEq k1 k2, PValue.decEq v1 v2, PValue.decEqDict xs ys with
      | isTrue h1, isTrue h2, isTrue h3 => isTrue (by rw [h1, h2, h3])
      | isFalse h1, _, _ =>
          isFalse (by intro hh; injection hh with hp ht; injection hp; exact h1 (by assumption))
      | _, isFalse h2, _ =>
          isFalse (by intro hh; injection hh with hp ht; injection hp; exact h2 (by assumption))
      | _, _, isFalse h3 =>
          isFalse (by intro hh; injection hh with hp ht; exact h3 ht)

end

instance : DecidableEq PValue := PValue.decEq

mutual

/-- Embedding of Python `repr` on a `PValue` (booleans as `True` / `False`,
strings in single quotes, lists in brackets, dicts in braces); string quoting
is modelled for quote-free strings, which is all the code produces. -/
def pyRepr : PValue → String
  | PValue.bool b => if b then "True" else "False"
  | PValue.str s => "\x27" ++ s ++ "\x27"
  | PValue.list l => "[" ++ pyReprList l ++ "]"
  | PValue.dict d => "\x7b" ++ pyReprDict d ++ "\x7d"

/-- Comma-separated `repr`s of list elements. -/
def pyReprList : List PValue → String
  | [] => ""
  | [v] => pyRepr v
  | v :: vs => pyRepr v ++ ", " ++ pyReprList vs

/-- Comma-separated `repr`s of dict items. -/
def pyReprDict : List (String × PValue) → String
  | [] => ""
  | [(k, v)] => "\x27" ++ k ++ "\x27: " ++ pyRepr v
  | (k, v) :: ps => "\x27" ++ k ++ "\x27: " ++ pyRepr v ++ ", " ++ pyReprDict ps

end

/-- Embedding of Python `str()` on a `PValue`: identical to `repr` except
that a string is returned unquoted. -/
def pyStr : PValue → String
  | PValue.str s => s
  | v => pyRepr v

/-- Modelled from the spec: the `CliParameters` collaborator of
`configuration_subsystem/definitions.py`, which is not under `src/`. The spec
gives its boundary as `optional<{short: optional<string>,
renderLong(dashedName) → string}>`: an optional declared short flag and a
method rendering the long flag from the entry's dashed name (the rendering
mechanism is owned by this external type, so it is kept abstract as a
function-valued field). -/
structure CliParameters where
  short : Option String
  long : String → String

/-- Modelled from the spec: the resolved value object exposed by
`entry.value.resolved` — `{current: value, default: value, isDefault:
bool}` per the spec's external-interface section. -/
structure SettingsResolvedValue where
  current : PValue
  default : PValue
  is_default : Bool
deriving DecidableEq

/-- Modelled from the spec: a settings entry's value holder, carrying the
resolution result (`resolved`) and the source tag of the current value
(`entry.value.source`, used at line 199 of `defs_presentable.py`). -/
structure SettingsEntryValue where
  resolved : SettingsResolvedValue
  source : Constants
deriving DecidableEq

/-- Modelled from the spec: the `SettingsEntry` collaborator of
`configuration_subsystem/definitions.py`, which is not under `src/`; fields
and methods are taken from the spec's boundary description and are exactly
the attributes `from_settings_entry` reads. `environment_variable` and
`settings_file_path` are the entry's own rendering methods, kept abstract as
function-valued fields. -/
structure SettingsEntry where
  name : String
  name_dashed : String
  choices : List PValue
  cli_parameters : Option CliParameters
  environment_variable : String → String
  settings_file_path : String → String
  short_description : String
  subcommands : SubcommandScope
  value : SettingsEntryValue

/-- Modelled from the spec: the slice of `Internals`
(`navigator_configuration.py`, not under `src/`) read by
`for_settings_file`: the discovered settings-file path (`string |
NoneSentinel`, here `Option String`) and the discovered source tag. -/
structure Internals where
  settings_file_path : Option String
  settings_source : Constants

/-- Modelled from the spec: the external sample-snippet generator
`create_settings_file_sample` (`configuration_subsystem/utils.py`, not under
`src/`). Per the spec it "build[s] `settingsFileSample`" as "a snippet
illustrating how this key appears in a settings file, with the value replaced
by a placeholder marker": a nested mapping following the dot-separated
settings path, with the placeholder at the value position. -/
def create_settings_file_sample (settings_path : String) (placeholder : String) : PValue :=
  match (settings_path.splitOn ".").reverse with
  | [] => PValue.dict [(settings_path, PValue.str placeholder)]
  | leaf :: outer =>
      outer.foldl (fun acc key => PValue.dict [(key, acc)])
        (PValue.dict [(leaf, PValue.str placeholder)])

/-- The fixed message standing in for an absent long CLI flag
(`PresentableCliParameters.NO_LONG_MSG`). -/
def PresentableCliParameters.NO_LONG_MSG : String := "No long CLI parameter"

/-- The fixed message standing in for an absent short CLI flag
(`PresentableCliParameters.NO_SHORT_MSG`). -/
def PresentableCliParameters.NO_SHORT_MSG : String := "No short CLI parameter"

/-- A settings entry's cli parameters in a presentable structure
(`PresentableCliParameters`, lines 27-55 of `defs_presentable.py`); both
fields default to the sentinel messages as in the source dataclass. -/
structure PresentableCliParameters where
  long : String := PresentableCliParameters.NO_LONG_MSG
  short : String := PresentableCliParameters.NO_SHORT_MSG
deriving DecidableEq

/-- Embedding of `PresentableCliParameters.from_cli_params` (lines 39-55):
when the entry has `CliParameters`, `short` is the declared short flag with
Python falsiness (`None` or the empty string) replaced by `NO_SHORT_MSG`,
and `long` is rendered by the cli parameters object from the dashed name;
otherwise the all-sentinel default instance is returned. -/
def PresentableCliParameters.from_cli_params
    (cli_parameters : Option CliParameters) (name_dashed : String) :
    PresentableCliParameters :=
  match cli_parameters with
  | some cp =>
      let short := pyStrOr cp.short PresentableCliParameters.NO_SHORT_MSG
      let long := cp.long name_dashed
      { long := long, short := short }
  | none => {}

/-- A settings entry in a presentable structure (`PresentableSettingsEntry`,
lines 58-202 of `defs_presentable.py`), with the fields in the source's
declaration order and the same default for `cli_parameters`. -/
structure PresentableSettingsEntry where
  choices : List PValue
  current_settings_file : String
  current_value : PValue
  default_value : PValue
  default : Bool
  description : String
  env_var : String
  name : String
  settings_file_sample : PValue
  source : String
  subcommands : List SubcommandItem
  cli_parameters : PresentableCliParameters := {}
deriving DecidableEq

/-- Embedding of the `current` property (lines 88-94): the current value
converted to a string with Python `str()`. -/
def PresentableSettingsEntry.current (e : PresentableSettingsEntry) : String :=
  pyStr e.current_value

/-- The names of the twelve dataclass fields of
`PresentableSettingsEntry`. -/
def presentableFieldNames : List String :=
  ["choices", "current_settings_file", "current_value", "default_value",
   "default", "description", "env_var", "name", "settings_file_sample",
   "source", "subcommands", "cli_parameters"]

/-- The complete set of plain-named (non-double-underscore) attributes that
Python attribute lookup resolves on a `PresentableSettingsEntry` instance:
the twelve dataclass fields, the `current` property, and the callables the
class body defines (`get` itself and the two classmethods). Neither the
class nor its bases contribute any further plain-named attribute; everything
else inherited (`__lt__`, `__repr__`, `__dataclass_fields__`, ...) is
double-underscore protocol machinery. -/
def presentableAttributeNames : List String :=
  ["choices", "current_settings_file", "current_value", "default_value",
   "default", "description", "env_var", "name", "settings_file_sample",
   "source", "subcommands", "cli_parameters", "current", "get",
   "for_settings_file", "from_settings_entry"]

/-- Whether a key is double-underscore-prefixed, i.e. addresses Python's
inherited protocol attribute namespace rather than the record's own data and
callables. -/
def isDunderName (s : String) : Bool :=
  match s.data with
  | c1 :: c2 :: _ => c1 = '_' && c2 = '_'
  | _ => false

/-- A value returned by the dictionary-style accessor `get`: the attributes
of a `PresentableSettingsEntry` have heterogeneous types. A method or
classmethod attribute is resolved to a bound-callable object, opaque to the
embedding and identified by its name. -/
inductive FieldValue where
  | str (s : String)
  | bool (b : Bool)
  | value (v : PValue)
  | values (l : List PValue)
  | subs (l : List SubcommandItem)
  | cli (c : PresentableCliParameters)
  | methodAttr (name : String)
deriving DecidableEq

/-- Embedding of `PresentableSettingsEntry.get` (lines 96-109):
`getattr(self, attribute)` with no default. `getattr` resolves any attribute
in existence — a dataclass field, the `current` property, but equally the
class's own callables (`get`, `for_settings_file`, `from_settings_entry`),
which it returns as bound callables instead of raising — and raises
`AttributeError` (modelled as `Option.none`, never a fabricated default)
for any other plain name. The embedding covers the plain-named key space
(`isDunderName attr = false`): inherited double-underscore protocol
attributes such as `__lt__` or `__repr__` also resolve in Python but are
outside the model, and the theorems below claim nothing about such keys. -/
def PresentableSettingsEntry.get (e : PresentableSettingsEntry)
    (attr : String) : Option FieldValue :=
  if attr = "choices" then some (FieldValue.values e.choices)
  else if attr = "current_settings_file" then
    some (FieldValue.str e.current_settings_file)
  else if attr = "current_value" then some (FieldValue.value e.current_value)
  else if attr = "default_value" then some (FieldValue.value e.default_value)
  else if attr = "default" then some (FieldValue.bool e.default)
  else if attr = "description" then some (FieldValue.str e.description)
  else if attr = "env_var" then some (FieldValue.str e.env_var)
  else if attr = "name" then some (FieldValue.str e.name)
  else if attr = "settings_file_sample" then
    some (FieldValue.value e.settings_file_sample)
  else if attr = "source" then some (FieldValue.str e.source)
  else if attr = "subcommands" then some (FieldValue.subs e.subcommands)
  else if attr = "cli_parameters" then some (FieldValue.cli e.cli_parameters)
  else if attr = "current" then some (FieldValue.str e.current)
  else if attr = "get" then some (FieldValue.methodAttr "get")
  else if attr = "for_settings_file" then
    some (FieldValue.methodAttr "for_settings_file")
  else if attr = "from_settings_entry" then
    some (FieldValue.methodAttr "from_settings_entry")
  else none

/-- Embedding of `PresentableSettingsEntry.__lt__` (lines 111-117): compare
two presentable entries by `name` only, with Python's code-point string
ordering. -/
def PresentableSettingsEntry.lt (a b : PresentableSettingsEntry) : Bool :=
  pyStrLt a.name b.name

/-- Embedding of `PresentableSettingsEntry.for_settings_file` (lines
119-150): the synthetic entry describing the settings file itself. -/
def PresentableSettingsEntry.for_settings_file
    (all_subcommands : List SubcommandItem) (application_name : String)
    (internals : Internals) : PresentableSettingsEntry :=
  let description :=
    "The path to the current settings file. Possible locations are \x7bCWD\x7d/ansible-navigator.\x7bext\x7d or \x7bHOME\x7d/.ansible-navigator.\x7bext\x7d where ext is yml, yaml or json."
  { choices := [],
    current_settings_file := pyStrOr internals.settings_file_path Constants.NONE.value,
    current_value := PValue.str (pyStrOr internals.settings_file_path Constants.NONE.value),
    default := decide (internals.settings_source = Constants.NONE),
    default_value := PValue.str Constants.NONE.value,
    description := description,
    name := "Current settings file",
    env_var := pyUpper application_name ++ "_CONFIG",
    settings_file_sample := PValue.str "Not applicable",
    source := internals.settings_source.value,
    subcommands := all_subcommands }

/-- Embedding of `PresentableSettingsEntry.from_settings_entry` (lines
152-202): project one resolved settings entry into its presentable form. -/
def PresentableSettingsEntry.from_settings_entry
    (all_subcommands : List SubcommandItem) (application_name_dashed : String)
    (entry : SettingsEntry) (settings_file_path : String) :
    PresentableSettingsEntry :=
  let cli_parameters :=
    PresentableCliParameters.from_cli_params entry.cli_parameters entry.name_dashed
  let env_var := entry.environment_variable application_name_dashed
  let entry_value_resolved := entry.value.resolved
  let path := entry.settings_file_path application_name_dashed
  let settings_file_sample := create_settings_file_sample path "<------"
  let subcommands :=
    match entry.subcommands with
    | SubcommandScope.const c =>
        if c = Constants.ALL then all_subcommands else [SubcommandItem.name c.value]
    | SubcommandScope.list l => l
  { choices := entry.choices,
    cli_parameters := cli_parameters,
    current_settings_file := settings_file_path,
    current_value := entry_value_resolved.current,
    default := entry_value_resolved.is_default,
    default_value := entry_value_resolved.default,
    description := entry.short_description,
    env_var := env_var,
    name := pyCapitalize (pyReplaceUnderscore entry.name),
    settings_file_sample := settings_file_sample,
    source := entry.value.source.value,
    subcommands := subcommands }

/-- The display-name transformation exactly as the claim words it:
underscores replaced by single spaces, only the first character of the
result capitalized, and all other characters left unchanged. -/
def specClaimDisplayName (name : String) : String :=
  match (pyReplaceUnderscore name).data with
  | [] => String.mk []
  | c :: cs => String.mk (Char.toUpper c :: cs)

/-- One pass of the amended display-name transformation over the characters:
each underscore becomes a space, the first character is uppercased and every
later character is lowercased. -/
def specAmendedChars : Bool → List Char → List Char
  | _, [] => []
  | isFirst, c :: cs =>
      (if isFirst then Char.toUpper (if c = '_' then ' ' else c)
       else Char.toLower (if c = '_' then ' ' else c)) :: specAmendedChars false cs

/-- The amended display-name transformation, written from the amended
claim's words as a single character pass: underscores replaced by single
spaces, the first character of the result capitalized and all remaining
characters lowercased. -/
def specAmendedDisplayName (name : String) : String :=
  String.mk (specAmendedChars true name.data)

/-- A sample list of subcommand names. -/
def allSubsSample : List SubcommandItem :=
  [SubcommandItem.name "run", SubcommandItem.name "doc"]

/-- A sample long-flag renderer for a `CliParameters` collaborator. -/
def sampleLong : String → String := fun name_dashed => "--" ++ name_dashed

/-- A sample resolved entry value whose current value came from the
defaults tier. -/
def sampleValue : SettingsEntryValue :=
  { resolved :=
      { current := PValue.str "vim", default := PValue.str "nano", is_default := false },
    source := Constants.DEFAULT_CFG }

/-- A sample resolved entry value on which the resolution engine's
`is_default` flag disagrees with plain value equality: the current value
equals the default value, yet the flag is `false`. -/
def sampleValueOdd : SettingsEntryValue :=
  { resolved :=
      { current := PValue.str "x", default := PValue.str "x", is_default := false },
    source := Constants.ENVIRONMENT_VARIABLE }

/-- A sample settings entry with no cli parameters, scoped to all
subcommands. -/
def entryEditorConsole : SettingsEntry :=
  { name := "editor_console",
    name_dashed := "editor-console",
    choices := [PValue.bool true, PValue.bool false],
    cli_parameters := none,
    environment_variable := fun app => pyUpper app ++ "_EDITOR_CONSOLE",
    settings_file_path := fun app => app ++ ".editor.console",
    short_description := "Specify if the editor is console based",
    subcommands := SubcommandScope.const Constants.ALL,
    value := sampleValue }

/-- A sample settings entry whose subcommand scope is a single named scope
(a `Constants` member other than the all sentinel). -/
def entryScopeSingle : SettingsEntry :=
  { name := "mode",
    name_dashed := "mode",
    choices := [],
    cli_parameters := some { short := some "-m", long := sampleLong },
    environment_variable := fun app => pyUpper app ++ "_MODE",
    settings_file_path := fun app => app ++ ".mode",
    short_description := "Specify the user-interface mode",
    subcommands := SubcommandScope.const Constants.NOT_SET,
    value := sampleValue }

/-- A sample settings entry whose name mixes letter cases and whose
subcommand scope is an explicit (empty) list. -/
def entryNameAB : SettingsEntry :=
  { name := "a_B",
    name_dashed := "a-b",
    choices := [],
    cli_parameters := none,
    environment_variable := fun app => pyUpper app ++ "_A_B",
    settings_file_path := fun app => app ++ ".a.b",
    short_description := "A mixed-case sample entry",
    subcommands := SubcommandScope.list [],
    value := sampleValue }

/-- A sample settings entry on which the resolution flag disagrees with
value equality (see `sampleValueOdd`). -/
def entryOddDefault : SettingsEntry :=
  { name := "odd_entry",
    name_dashed := "odd-entry",
    choices := [],
    cli_parameters := none,
    environment_variable := fun app => pyUpper app ++ "_ODD_ENTRY",
    settings_file_path := fun app => app ++ ".odd.entry",
    short_description := "An entry whose resolved flag is source-tag based",
    subcommands := SubcommandScope.list [SubcommandItem.name "run"],
    value := sampleValueOdd }

/-- Sample cli parameters declaring an empty short flag. -/
def sampleCliEmptyShort : CliParameters :=
  { short := some "", long := sampleLong }

/-- Internals describing a run in which no settings file was discovered. -/
def internalsNoFile : Internals :=
  { settings_file_path := none, settings_source := Constants.NONE }

/-- A concrete presentable entry named `Zebra`. -/
def entryZebra : PresentableSettingsEntry :=
  { choices := [],
    current_settings_file := "cfg.yml",
    current_value := PValue.str "z",
    default_value := PValue.str "zz",
    default := false,
    description := "first sample",
    env_var := "APP_Z",
    name := "Zebra",
    settings_file_sample := PValue.str "sample",
    source := "defaults",
    subcommands := [SubcommandItem.name "run"] }

/-- A concrete presentable entry named `alpha`, differing from the others in
every other field as well. -/
def entryAlpha : PresentableSettingsEntry :=
  { choices := [PValue.str "a"],
    current_settings_file := "other.yml",
    current_value := PValue.bool true,
    default_value := PValue.bool false,
    default := true,
    description := "second sample",
    env_var := "APP_A",
    name := "alpha",
    settings_file_sample := PValue.str "other sample",
    source := "environment variable",
    subcommands := [] }

/-- A concrete presentable entry named `Beta`. -/
def entryBeta : PresentableSettingsEntry :=
  { choices := [],
    current_settings_file := "beta.yml",
    current_value := PValue.str "b",
    default_value := PValue.str "b",
    default := true,
    description := "third sample",
    env_var := "APP_B",
    name := "Beta",
    settings_file_sample := PValue.str "beta sample",
    source := "cli parameters",
    subcommands := [SubcommandItem.name "doc"] }

theorem specAmendedChars_false (l : List Char) :
    specAmendedChars false l
      = l.map (fun c => Char.toLower (if c = '_' then ' ' else c)) := by
  induction l with
  | nil => rfl
  | cons c cs ih => simp [specAmendedChars, ih]

theorem pyCapitalize_pyReplaceUnderscore (s : String) :
    pyCapitalize (pyReplaceUnderscore s) = specAmendedDisplayName s := by
  cases s with
  | mk data =>
    cases data with
    | nil => rfl
    | cons c cs =>
      simp [pyCapitalize, pyReplaceUnderscore, specAmendedDisplayName,
        specAmendedChars, specAmendedChars_false, pySubUnderscore,
        List.map_map, Function.comp]
      rfl

/-- C1 counterexample: the claim predicts that characters after the first
are left unchanged, but Python `str.capitalize` lowercases them. On the
entry named `"a_B"` the projection produces `"A b"`, while the claim's
transformation produces `"A B"`. -/
theorem name_display_counterexample :
    (PresentableSettingsEntry.from_settings_entry allSubsSample
        "ansible-navigator" entryNameAB "cfg.yml").name = "A b" ∧
    specClaimDisplayName entryNameAB.name = "A B" ∧
    (PresentableSettingsEntry.from_settings_entry allSubsSample
        "ansible-navigator" entryNameAB "cfg.yml").name ≠
      specClaimDisplayName entryNameAB.name := by
  refine ⟨rfl, rfl, by decide⟩

/-- C1 (amended): for every settings entry the projected display name equals
the entry's name with every underscore replaced by a single space, the first
character of the result capitalized and all remaining characters lowercased;
in particular the entry named `"editor_console"` projects to
`"Editor console"`. -/
theorem name_display_amended :
    (∀ (all_subcommands : List SubcommandItem) (app : String)
        (entry : SettingsEntry) (sfp : String),
      (PresentableSettingsEntry.from_settings_entry all_subcommands app entry
          sfp).name = specAmendedDisplayName entry.name) ∧
    (PresentableSettingsEntry.from_settings_entry allSubsSample
        "ansible-navigator" entryEditorConsole "cfg.yml").name
      = "Editor console" := by
  constructor
  · intro all_subcommands app entry sfp
    exact pyCapitalize_pyReplaceUnderscore entry.name
  · rfl

/-- C2: the projected `subcommands` is the full subcommand list when the
entry's scope is the all sentinel, the one-element list holding the scope's
name when the scope is any other single named scope, and the explicit list
unchanged otherwise; consequently, whenever the inputs hold no all sentinel,
neither does the projected list. -/
theorem subcommands_resolution :
    ∀ (all_subcommands : List SubcommandItem) (app : String)
      (entry : SettingsEntry) (sfp : String),
    (entry.subcommands = SubcommandScope.const Constants.ALL →
      (PresentableSettingsEntry.from_settings_entry all_subcommands app entry
          sfp).subcommands = all_subcommands) ∧
    (∀ c : Constants, c ≠ Constants.ALL →
      entry.subcommands = SubcommandScope.const c →
      (PresentableSettingsEntry.from_settings_entry all_subcommands app entry
          sfp).subcommands = [SubcommandItem.name c.value]) ∧
    (∀ l : List SubcommandItem, entry.subcommands = SubcommandScope.list l →
      (PresentableSettingsEntry.from_settings_entry all_subcommands app entry
          sfp).subcommands = l) ∧
    (SubcommandItem.sentinel Constants.ALL ∉ all_subcommands →
      (∀ l : List SubcommandItem, entry.subcommands = SubcommandScope.list l →
        SubcommandItem.sentinel Constants.ALL ∉ l) →
      SubcommandItem.sentinel Constants.ALL ∉
        (PresentableSettingsEntry.from_settings_entry all_subcommands app entry
            sfp).subcommands) := by
  intro all_subcommands app entry sfp
  refine ⟨?_, ?_, ?_, ?_⟩
  · intro h
    simp [PresentableSettingsEntry.from_settings_entry, h]
  · intro c hc h
    simp [PresentableSettingsEntry.from_settings_entry, h, hc]
  · intro l h
    simp [PresentableSettingsEntry.from_settings_entry, h]
  · intro hall hlists
    rcases hs : entry.subcommands with c | l
    · by_cases hc : c = Constants.ALL
      · subst hc
        simpa [PresentableSettingsEntry.from_settings_entry, hs] using hall
      · simp [PresentableSettingsEntry.from_settings_entry, hs, hc]
    · have hl := hlists l hs
      simpa [PresentableSettingsEntry.from_settings_entry, hs] using hl

/-- C2 witness: the three scope shapes on concrete entries, and the
sentinel-freedom consequence on a concrete projection. -/
theorem subcommands_resolution_witness :
    (PresentableSettingsEntry.from_settings_entry allSubsSample "app"
        entryEditorConsole "cfg.yml").subcommands = allSubsSample ∧
    (PresentableSettingsEntry.from_settings_entry allSubsSample "app"
        entryScopeSingle "cfg.yml").subcommands
      = [SubcommandItem.name "not set"] ∧
    (PresentableSettingsEntry.from_settings_entry allSubsSample "app"
        entryNameAB "cfg.yml").subcommands = [] ∧
    SubcommandItem.sentinel Constants.ALL ∉
      (PresentableSettingsEntry.from_settings_entry allSubsSample "app"
          entryEditorConsole "cfg.yml").subcommands := by
  refine ⟨?_, ?_, ?_, ?_⟩
  · exact (subcommands_resolution allSubsSample "app" entryEditorConsole
      "cfg.yml").1 rfl
  · exact (subcommands_resolution allSubsSample "app" entryScopeSingle
      "cfg.yml").2.1 Constants.NOT_SET (by decide) rfl
  · exact (subcommands_resolution allSubsSample "app" entryNameAB
      "cfg.yml").2.2.1 [] rfl
  · exact (subcommands_resolution allSubsSample "app" entryEditorConsole
      "cfg.yml").2.2.2 (by decide)
      (fun l hl => SubcommandScope.noConfusion hl)

/-- C3: the synthetic settings-file entry is marked `default` exactly when
the discovered source tag is the none tag; when no settings file was found,
the current value and the current settings file both equal the none
sentinel's string form; and the environment variable is always the
application name uppercased followed by `_CONFIG`. -/
theorem for_settings_file_properties :
    ∀ (all_subcommands : List SubcommandItem) (application_name : String)
      (internals : Internals),
    ((PresentableSettingsEntry.for_settings_file all_subcommands
        application_name internals).default = true ↔
      internals.settings_source = Constants.NONE) ∧
    (internals.settings_file_path = none →
      (PresentableSettingsEntry.for_settings_file all_subcommands
          application_name internals).current_value
        = PValue.str Constants.NONE.value ∧
      (PresentableSettingsEntry.for_settings_file all_subcommands
          application_name internals).current_settings_file
        = Constants.NONE.value) ∧
    (PresentableSettingsEntry.for_settings_file all_subcommands
        application_name internals).env_var
      = pyUpper application_name ++ "_CONFIG" := by
  intro all_subcommands application_name internals
  refine ⟨?_, ?_, rfl⟩
  · simp [PresentableSettingsEntry.for_settings_file]
  · intro h
    constructor
    · simp [PresentableSettingsEntry.for_settings_file, h, pyStrOr]
    · simp [PresentableSettingsEntry.for_settings_file, h, pyStrOr]

/-- C3 witness: with no discovered settings file and application name
`myapp`, the synthetic entry is default, both path fields read `None` and
the environment variable is `MYAPP_CONFIG`. -/
theorem for_settings_file_properties_witness :
    (PresentableSettingsEntry.for_settings_file allSubsSample "myapp"
        internalsNoFile).default = true ∧
    (PresentableSettingsEntry.for_settings_file allSubsSample "myapp"
        internalsNoFile).current_value = PValue.str "None" ∧
    (PresentableSettingsEntry.for_settings_file allSubsSample "myapp"
        internalsNoFile).current_settings_file = "None" ∧
    (PresentableSettingsEntry.for_settings_file allSubsSample "myapp"
        internalsNoFile).env_var = "MYAPP_CONFIG" := by
  have h := for_settings_file_properties allSubsSample "myapp" internalsNoFile
  exact ⟨h.1.mpr rfl, (h.2.1 rfl).1, (h.2.1 rfl).2, h.2.2.trans (by decide)⟩

/-- C4: an entry declaring no cli parameters projects to the sentinel
messages for both the long and the short flag, never to empty strings. -/
theorem absent_cli_parameters_sentinels :
    ∀ (all_subcommands : List SubcommandItem) (app : String)
      (entry : SettingsEntry) (sfp : String),
    entry.cli_parameters = none →
    (PresentableSettingsEntry.from_settings_entry all_subcommands app entry
        sfp).cli_parameters.long = "No long CLI parameter" ∧
    (PresentableSettingsEntry.from_settings_entry all_subcommands app entry
        sfp).cli_parameters.short = "No short CLI parameter" := by
  intro all_subcommands app entry sfp h
  constructor
  · simp [PresentableSettingsEntry.from_settings_entry,
      PresentableCliParameters.from_cli_params, h,
      PresentableCliParameters.NO_LONG_MSG]
  · simp [PresentableSettingsEntry.from_settings_entry,
      PresentableCliParameters.from_cli_params, h,
      PresentableCliParameters.NO_SHORT_MSG]

/-- C4 witness: the cli-parameter sentinels on a concrete entry without cli
parameters. -/
theorem absent_cli_parameters_sentinels_witness :
    (PresentableSettingsEntry.from_settings_entry allSubsSample "app"
        entryEditorConsole "cfg.yml").cli_parameters.long
      = "No long CLI parameter" ∧
    (PresentableSettingsEntry.from_settings_entry allSubsSample "app"
        entryEditorConsole "cfg.yml").cli_parameters.short
      = "No short CLI parameter" :=
  absent_cli_parameters_sentinels allSubsSample "app" entryEditorConsole
    "cfg.yml" rfl

/-- C10: when cli parameters are present but the declared short flag is
falsy (the empty string, or absent), `from_cli_params` yields the short
sentinel message, so an empty declared short flag is indistinguishable in
the output from no declared short flag. -/
theorem empty_short_flag_sentinel :
    ∀ (cp : CliParameters) (name_dashed : String),
    cp.short = some "" ∨ cp.short = none →
    (PresentableCliParameters.from_cli_params (some cp) name_dashed).short
      = "No short CLI parameter" ∧
    (PresentableCliParameters.from_cli_params (some cp) name_dashed).short
      = (PresentableCliParameters.from_cli_params
          (some { cp with short := none }) name_dashed).short := by
  intro cp name_dashed h
  rcases h with h | h
  · constructor
    · simp [PresentableCliParameters.from_cli_params, h, pyStrOr,
        PresentableCliParameters.NO_SHORT_MSG]
    · simp [PresentableCliParameters.from_cli_params, h, pyStrOr]
  · constructor
    · simp [PresentableCliParameters.from_cli_params, h, pyStrOr,
        PresentableCliParameters.NO_SHORT_MSG]
    · simp [PresentableCliParameters.from_cli_params, h, pyStrOr]

/-- C10 witness: a concrete cli-parameter object declaring an empty short
flag projects to the short sentinel. -/
theorem empty_short_flag_sentinel_witness :
    (PresentableCliParameters.from_cli_params (some sampleCliEmptyShort)
        "editor-console").short = "No short CLI parameter" :=
  (empty_short_flag_sentinel sampleCliEmptyShort "editor-console"
    (Or.inl rfl)).1

/-- C6: the projection copies the current value, the default value and the
`is_default` flag verbatim from the entry's already-resolved value object;
in particular, even when the resolved flag disagrees with value equality of
current and default, the projected record carries the resolved flag. -/
theorem resolved_values_copied_verbatim :
    ∀ (all_subcommands : List SubcommandItem) (app : String)
      (entry : SettingsEntry) (sfp : String),
    (PresentableSettingsEntry.from_settings_entry all_subcommands app entry
        sfp).current_value = entry.value.resolved.current ∧
    (PresentableSettingsEntry.from_settings_entry all_subcommands app entry
        sfp).default_value = entry.value.resolved.default ∧
    (PresentableSettingsEntry.from_settings_entry all_subcommands app entry
        sfp).default = entry.value.resolved.is_default ∧
    (entry.value.resolved.is_default
        ≠ decide (entry.value.resolved.current = entry.value.resolved.default) →
      (PresentableSettingsEntry.from_settings_entry all_subcommands app entry
          sfp).default = entry.value.resolved.is_default) := by
  intro all_subcommands app entry sfp
  exact ⟨rfl, rfl, rfl, fun _ => rfl⟩

/-- C6 witness: on a concrete entry whose resolved current value equals its
default value while the resolution engine still reports `is_default =
false`, the projection carries the resolved flag `false`. -/
theorem resolved_values_copied_verbatim_witness :
    (PresentableSettingsEntry.from_settings_entry allSubsSample "app"
        entryOddDefault "cfg.yml").default = false :=
  (resolved_values_copied_verbatim allSubsSample "app" entryOddDefault
    "cfg.yml").2.2.2 (by decide)

/-- C8: the projected `choices` holds exactly the elements of the source
entry's choices, in the same order (the source's `list(entry.choices)` is an
order-preserving copy; ordered source containers are modelled as lists). -/
theorem choices_materialized :
    ∀ (all_subcommands : List SubcommandItem) (app : String)
      (entry : SettingsEntry) (sfp : String),
    (PresentableSettingsEntry.from_settings_entry all_subcommands app entry
        sfp).choices = entry.choices := by
  intro all_subcommands app entry sfp
  rfl

/-- C9: projecting the same entry twice with identical inputs yields records
that are field-for-field equal. -/
theorem from_settings_entry_deterministic :
    ∀ (all_subcommands : List SubcommandItem) (app : String)
      (entry : SettingsEntry) (sfp : String),
    (PresentableSettingsEntry.from_settings_entry all_subcommands app entry
        sfp).choices
      = (PresentableSettingsEntry.from_settings_entry all_subcommands app
          entry sfp).choices ∧
    (PresentableSettingsEntry.from_settings_entry all_subcommands app entry
        sfp).current_settings_file
      = (PresentableSettingsEntry.from_settings_entry all_subcommands app
          entry sfp).current_settings_file ∧
    (PresentableSettingsEntry.from_settings_entry all_subcommands app entry
        sfp).current_value
      = (PresentableSettingsEntry.from_settings_entry all_subcommands app
          entry sfp).current_value ∧
    (PresentableSettingsEntry.from_settings_entry all_subcommands app entry
        sfp).default_value
      = (PresentableSettingsEntry.from_settings_entry all_subcommands app
          entry sfp).default_value ∧
    (PresentableSettingsEntry.from_settings_entry all_subcommands app entry
        sfp).default
      = (PresentableSettingsEntry.from_settings_entry all_subcommands app
          entry sfp).default ∧
    (PresentableSettingsEntry.from_settings_entry all_subcommands app entry
        sfp).description
      = (PresentableSettingsEntry.from_settings_entry all_subcommands app
          entry sfp).description ∧
    (PresentableSettingsEntry.from_settings_entry all_subcommands app entry
        sfp).env_var
      = (PresentableSettingsEntry.from_settings_entry all_subcommands app
          entry sfp).env_var ∧
    (PresentableSettingsEntry.from_settings_entry all_subcommands app entry
        sfp).name
      = (PresentableSettingsEntry.from_settings_entry all_subcommands app
          entry sfp).name ∧
    (PresentableSettingsEntry.from_settings_entry all_subcommands app entry
        sfp).settings_file_sample
      = (PresentableSettingsEntry.from_settings_entry all_subcommands app
          entry sfp).settings_file_sample ∧
    (PresentableSettingsEntry.from_settings_entry all_subcommands app entry
        sfp).source
      = (PresentableSettingsEntry.from_settings_entry all_subcommands app
          entry sfp).source ∧
    (PresentableSettingsEntry.from_settings_entry all_subcommands app entry
        sfp).subcommands
      = (PresentableSettingsEntry.from_settings_entry all_subcommands app
          entry sfp).subcommands ∧
    (PresentableSettingsEntry.from_settings_entry all_subcommands app entry
        sfp).cli_parameters
      = (PresentableSettingsEntry.from_settings_entry all_subcommands app
          entry sfp).cli_parameters := by
  intro all_subcommands app entry sfp
  exact ⟨rfl, rfl, rfl, rfl, rfl, rfl, rfl, rfl, rfl, rfl, rfl, rfl⟩

theorem pyCharsLt_iff (as : List Char) :
    ∀ bs : List Char, pyCharsLt as bs = true ↔ as < bs := by
  induction as with
  | nil =>
    intro bs
    cases bs with
    | nil =>
      constructor
      · intro h; exact Bool.noConfusion h
      · intro h; exact absurd h (List.Lex.not_nil_right _ _)
    | cons b bs => exact ⟨fun _ => List.Lex.nil, fun _ => rfl⟩
  | cons a as ih =>
    intro bs
    cases bs with
    | nil =>
      constructor
      · intro h; exact Bool.noConfusion h
      · intro h; exact absurd h (List.Lex.not_nil_right _ _)
    | cons b bs =>
      show (if a < b then true else if b < a then false else pyCharsLt as bs)
          = true ↔ _
      by_cases hab : a < b
      · rw [if_pos hab]
        exact ⟨fun _ => List.Lex.rel hab, fun _ => rfl⟩
      · rw [if_neg hab]
        by_cases hba : b < a
        · rw [if_pos hba]
          constructor
          · intro h; exact Bool.noConfusion h
          · intro h
            cases h with
            | cons h2 => exact absurd hba (lt_irrefl a)
            | rel h2 => exact absurd h2 hab
        · rw [if_neg hba]
          have heq : a = b := le_antisymm (not_lt.mp hba) (not_lt.mp hab)
          subst heq
          constructor
          · intro h; exact List.Lex.cons ((ih bs).mp h)
          · intro h
            cases h with
            | cons h2 => exact (ih bs).mpr h2
            | rel h2 => exact absurd h2 (lt_irrefl a)

theorem pyStrLt_iff (s t : String) : pyStrLt s t = true ↔ s < t := by
  rw [String.lt_iff_toList_lt]
  exact pyCharsLt_iff s.data t.data

/-- C5: two presentable entries compare by name alone, with the comparison
agreeing with case-sensitive ordinal (code-point) string ordering, whatever
their other fields hold; sorting the three entries named `Zebra`, `alpha`
and `Beta` by this relation yields the order `Beta`, `Zebra`, `alpha`. -/
theorem lt_by_name_and_sort_example :
    (∀ a b : PresentableSettingsEntry,
      PresentableSettingsEntry.lt a b = true ↔ a.name < b.name) ∧
    (List.insertionSort (fun a b => PresentableSettingsEntry.lt a b = true)
        [entryZebra, entryAlpha, entryBeta]).map PresentableSettingsEntry.name
      = ["Beta", "Zebra", "alpha"] := by
  constructor
  · intro a b
    exact pyStrLt_iff a.name b.name
  · decide

/-- C5 witness: the comparison on two concrete entries, read back through
the name characterization. -/
theorem lt_by_name_and_sort_example_witness :
    entryBeta.name < entryZebra.name :=
  (lt_by_name_and_sort_example.1 entryBeta entryZebra).mp (by decide)

/-- C7 counterexample: the claim asserts the accessor fails fatally on
every key naming no existing field, but `getattr` resolves any existing
attribute: the key `"get"` names no field of the record, yet the accessor
returns the bound method instead of failing. -/
theorem get_field_only_counterexample :
    "get" ∉ presentableFieldNames ∧
    entryZebra.get "get" = some (FieldValue.methodAttr "get") ∧
    entryZebra.get "get" ≠ none :=
  ⟨by decide, rfl, by decide⟩

/-- C7 (amended): the dictionary-style accessor `get` returns the value of
each of the twelve record fields when the key names that field, resolves the
entry's other existing attributes (the derived `current` property and the
class's callables) rather than failing on them, and fails fatally — raises,
modelled as `none`, never a sentinel "missing" value or a silent default —
on every plain (non-double-underscore) key that names no existing
attribute. -/
theorem get_resolves_attributes :
    ∀ e : PresentableSettingsEntry,
    (∀ a : String, isDunderName a = false → a ∉ presentableAttributeNames →
      e.get a = none) ∧
    e.get "choices" = some (FieldValue.values e.choices) ∧
    e.get "current_settings_file" = some (FieldValue.str e.current_settings_file) ∧
    e.get "current_value" = some (FieldValue.value e.current_value) ∧
    e.get "default_value" = some (FieldValue.value e.default_value) ∧
    e.get "default" = some (FieldValue.bool e.default) ∧
    e.get "description" = some (FieldValue.str e.description) ∧
    e.get "env_var" = some (FieldValue.str e.env_var) ∧
    e.get "name" = some (FieldValue.str e.name) ∧
    e.get "settings_file_sample" = some (FieldValue.value e.settings_file_sample) ∧
    e.get "source" = some (FieldValue.str e.source) ∧
    e.get "subcommands" = some (FieldValue.subs e.subcommands) ∧
    e.get "cli_parameters" = some (FieldValue.cli e.cli_parameters) ∧
    e.get "current" = some (FieldValue.str (pyStr e.current_value)) ∧
    e.get "get" = some (FieldValue.methodAttr "get") ∧
    e.get "for_settings_file" = some (FieldValue.methodAttr "for_settings_file") ∧
    e.get "from_settings_entry"
      = some (FieldValue.methodAttr "from_settings_entry") := by
  intro e
  refine ⟨?_, rfl, rfl, rfl, rfl, rfl, rfl, rfl, rfl, rfl, rfl, rfl, rfl,
    rfl, rfl, rfl, rfl⟩
  intro a _ ha
  simp only [presentableAttributeNames, List.mem_cons, List.not_mem_nil,
    or_false] at ha
  push_neg at ha
  obtain ⟨h1, h2, h3, h4, h5, h6, h7, h8, h9, h10, h11, h12, h13, h14, h15,
    h16⟩ := ha
  simp [PresentableSettingsEntry.get, h1, h2, h3, h4, h5, h6, h7, h8, h9,
    h10, h11, h12, h13, h14, h15, h16]

/-- C7 witness: on a concrete entry, an unknown plain key fails while a
known field is returned. -/
theorem get_resolves_attributes_witness :
    entryZebra.get "editor" = none ∧
    entryZebra.get "name" = some (FieldValue.str "Zebra") :=
  ⟨(get_resolves_attributes entryZebra).1 "editor" (by decide) (by decide),
   (get_resolves_attributes entryZebra).2.2.2.2.2.2.2.2.1⟩
